import Mathlib

set_option autoImplicit false

/-!
Shallow embedding of the `smbfs` package (file `smbfs/__init__.py`), a
PyFilesystem adapter over the pysmb SMB client.

Modelling conventions:
* A remote path is represented in its normalized absolute form, as the list
  of its components: `[]` is the root `/`, `["a","b"]` is `/a/b`.  The
  `_absnorm_path` decorator produces exactly this form before the wrapped
  code runs, so the embedded operations take already-normalized paths.
* Python exceptions are represented by explicit result values: `PyResult`
  distinguishes a normal return, a PyFilesystem taxonomy error (`FsError`),
  the plain `Exception('Unhandled SMB error: ...')` escalation, and a raw
  (unconverted) re-raised exception.
* The values that can appear in an error's `path` attribute are modelled by
  `PyVal`: a path, a share name, or the `SMBFS` instance itself (which is
  what `args[0]` is when `_conv_smb_errors` decorates a method directly).
-/

namespace SMBFSModel

/-- A normalized absolute remote path, as its list of components.
`[]` is the root `/`. -/
abbrev Path := List String

/-- `fs.path.dirname`: the containing directory of a path. -/
def dirname (p : Path) : Path := p.dropLast

/-- `fs.path.basename`: the final component of a path (`""` for the root). -/
def basename (p : Path) : String := p.getLastD ""

/-- A value that can be bound to an error's `path` attribute: a remote path,
the share name (for status `0xc00000cc`), or the `SMBFS` instance itself
(what `args[0]` is when `_conv_smb_errors` decorates a method directly). -/
inductive PyVal where
  | path (p : Path)
  | shareName (s : String)
  | fsObject
deriving DecidableEq, Repr

/-- One SMB protocol response message, as `_conv_smb_errors` reads it:
`msg.protocol`, `msg.status.internal_value` (SMB1) and `msg.status` (SMB2). -/
structure SMBMessage where
  protocol : Nat
  statusInternalValue : Nat
  statusDirect : Nat
deriving DecidableEq, Repr

/-- The numeric status of a message:
`msg.status.internal_value if msg.protocol == 1 else msg.status`. -/
def msgStatus (m : SMBMessage) : Nat :=
  if m.protocol = 1 then m.statusInternalValue else m.statusDirect

/-- The raw exceptions the wrapped pysmb/socket calls can raise into
`_conv_smb_errors`. -/
inductive RawExc where
  | gaierror (errnoVal : Int)
  | socketError (errnoVal : Int)
  | operationFailure (smb_messages : List SMBMessage)
  | notConnectedError
  | notReadyError
deriving DecidableEq, Repr

/-- The PyFilesystem error taxonomy raised by this layer (`fs.errors`
classes plus the subclasses defined in `smbfs/__init__.py`).  All of these
classes have a `path` attribute; `remoteConnection` is raised with no path
(its optional `path` field stays `none` unless later assigned), carrying the
underlying exception as `details`. -/
inductive FsError where
  | resourceNotFound (path : PyVal)
  | permissionDenied (opname : String) (path : PyVal)
  | resourceInvalid (path : PyVal)
  | destinationExists (path : PyVal)
  | deletePending (path : PyVal)
  | accountTimeRestricted (path : PyVal)
  | passwordExpired (path : PyVal)
  | directoryNotEmpty (path : PyVal)
  | accountExpired (path : PyVal)
  | passwordChangeRequired (path : PyVal)
  | accountLocked (path : PyVal)
  | parentDirectoryMissing (path : PyVal)
  | removeRoot (path : PyVal)
  | remoteConnection (details : RawExc) (path : Option PyVal)
deriving DecidableEq, Repr

/-- The `path` attribute of an error (`none` for a `RemoteConnectionError`
raised without one). -/
def FsError.errPath : FsError → Option PyVal
  | .resourceNotFound p => some p
  | .permissionDenied _ p => some p
  | .resourceInvalid p => some p
  | .destinationExists p => some p
  | .deletePending p => some p
  | .accountTimeRestricted p => some p
  | .passwordExpired p => some p
  | .directoryNotEmpty p => some p
  | .accountExpired p => some p
  | .passwordChangeRequired p => some p
  | .accountLocked p => some p
  | .parentDirectoryMissing p => some p
  | .removeRoot p => some p
  | .remoteConnection _ p => p

/-- The assignment `e.path = path` performed by `makedir` before re-raising. -/
def FsError.withPath : FsError → PyVal → FsError
  | .resourceNotFound _, q => .resourceNotFound q
  | .permissionDenied op _, q => .permissionDenied op q
  | .resourceInvalid _, q => .resourceInvalid q
  | .destinationExists _, q => .destinationExists q
  | .deletePending _, q => .deletePending q
  | .accountTimeRestricted _, q => .accountTimeRestricted q
  | .passwordExpired _, q => .passwordExpired q
  | .directoryNotEmpty _, q => .directoryNotEmpty q
  | .accountExpired _, q => .accountExpired q
  | .passwordChangeRequired _, q => .passwordChangeRequired q
  | .accountLocked _, q => .accountLocked q
  | .parentDirectoryMissing _, q => .parentDirectoryMissing q
  | .removeRoot _, q => .removeRoot q
  | .remoteConnection d _, q => .remoteConnection d (some q)

/-- The outcome of a call that went through `_conv_smb_errors`: a normal
return, a taxonomy error, the plain `Exception('Unhandled SMB error')`
escalation, or a raw exception re-raised unconverted. -/
inductive PyResult (α : Type) where
  | ok (a : α)
  | fsError (e : FsError)
  | escalate (status : Nat)
  | raw (e : RawExc)
deriving DecidableEq, Repr

/-- Linux `socket.EAI_NONAME`. -/
def EAI_NONAME : Int := -2
/-- Linux `errno.ECONNREFUSED`. -/
def ECONNREFUSED : Int := 111
/-- Linux `errno.EPIPE`. -/
def EPIPE : Int := 32
/-- Linux `errno.ETIMEDOUT`. -/
def ETIMEDOUT : Int := 110
/-- Linux `errno.ECONNRESET` (not in the handled set). -/
def ECONNRESET : Int := 104

/-- The `elif` chain of `_conv_smb_errors` mapping one non-success status
code to a taxonomy error; `none` means the final `else` branch, which raises
the plain `Exception('Unhandled SMB error: ...')`.  `share` is `args[0]` and
`path` is `args[1]` of the wrapped call. -/
def mapStatus (share path : PyVal) (status : Nat) : Option FsError :=
  if status = 0x103 then some (.resourceNotFound path)
  else if status = 0xc000000f then some (.resourceNotFound path)
  else if status = 0xc0000022 then some (.permissionDenied "access" path)
  else if status = 0xc0000033 then some (.resourceInvalid path)
  else if status = 0xc0000034 then some (.resourceNotFound path)
  else if status = 0xc0000035 then some (.destinationExists path)
  else if status = 0xc000003a then some (.resourceNotFound path)
  else if status = 0xc0000056 then some (.deletePending path)
  else if status = 0xc000006f then some (.accountTimeRestricted path)
  else if status = 0xc0000071 then some (.passwordExpired path)
  else if status = 0xc00000ba then some (.resourceInvalid path)
  else if status = 0xc00000cc then some (.resourceInvalid share)
  else if status = 0xc00000d0 then some (.resourceInvalid path)
  else if status = 0xc0000101 then some (.directoryNotEmpty path)
  else if status = 0xc0000103 then some (.resourceInvalid path)
  else if status = 0xc0000193 then some (.accountExpired path)
  else if status = 0xc0000224 then some (.passwordChangeRequired path)
  else if status = 0xc0000234 then some (.accountLocked path)
  else none

/-- The status codes the `elif` chain of `_conv_smb_errors` handles, in
source order. -/
def supportedCodes : List Nat :=
  [0x103, 0xc000000f, 0xc0000022, 0xc0000033, 0xc0000034, 0xc0000035,
   0xc000003a, 0xc0000056, 0xc000006f, 0xc0000071, 0xc00000ba, 0xc00000cc,
   0xc00000d0, 0xc0000101, 0xc0000103, 0xc0000193, 0xc0000224, 0xc0000234]

/-- The `for msg in e.smb_messages` loop of `_conv_smb_errors`: skip
successful statuses (`0x0`), map the first non-success one, and fall through
to the bare `raise` (re-raising the `OperationFailure`) if every message was
successful.  `allMsgs` is the full `e.smb_messages` list kept for that final
re-raise. -/
def convOperationFailure {α : Type} (share path : PyVal)
    (allMsgs : List SMBMessage) : List SMBMessage → PyResult α
  | [] => .raw (.operationFailure allMsgs)
  | m :: rest =>
    let s := msgStatus m
    if s = 0 then convOperationFailure share path allMsgs rest
    else
      match mapStatus share path s with
      | some e => .fsError e
      | none => .escalate s

/-- `_conv_smb_errors`: convert Samba errors into PyFilesystem errors.
`share` and `path` are what the decorated call received as `args[0]` and
`args[1]`: the share name and the path when an SMB client method is wrapped
directly (`_conv_smb_errors(self.conn.listPath)(self.share, pathdir)`), but
the `SMBFS` instance and the first path argument when an `SMBFS` method is
decorated (`self` is `args[0]` there). -/
def conv_smb_errors {α : Type} (share path : PyVal)
    (inner : Except RawExc α) : PyResult α :=
  match inner with
  | .ok a => .ok a
  | .error (.gaierror n) =>
    if n = EAI_NONAME then .fsError (.remoteConnection (.gaierror n) none)
    else .raw (.gaierror n)
  | .error (.socketError n) =>
    if n = ECONNREFUSED ∨ n = EPIPE ∨ n = ETIMEDOUT then
      .fsError (.remoteConnection (.socketError n) none)
    else .raw (.socketError n)
  | .error (.operationFailure msgs) => convOperationFailure share path msgs msgs
  | .error .notConnectedError =>
    .fsError (.remoteConnection .notConnectedError none)
  | .error .notReadyError => .fsError (.remoteConnection .notReadyError none)

/-- The first non-success status among the messages, in order. -/
def firstNonSuccess (msgs : List SMBMessage) : Option Nat :=
  (msgs.map msgStatus).find? (fun s => s != 0)

/-- `SMBFS.remove` seen at its `_conv_smb_errors` decorator: `remove` is an
`SMBFS` method decorated directly, so the decorator's `args[0]` is the
`SMBFS` instance (`self`) and `args[1]` is the path.  `rawInner` is the raw
outcome of the underlying `conn.deleteFiles` call. -/
def removeTranslated (p : Path) (rawInner : Except RawExc Unit) : PyResult Unit :=
  conv_smb_errors .fsObject (.path p) rawInner

/-- The probe results `_determine_cause` observes when it calls
`fs.exists`, `fs.isdir` and `fs.isfile` on the candidate paths. -/
structure ProbeFS where
  isfileAt : Path → Bool
  isdirAt : Path → Bool

/-- `fs.base.FS.exists`, the PyFilesystem default used by `SMBFS`:
`self.isfile(path) or self.isdir(path)`. -/
def ProbeFS.existsAt (fs : ProbeFS) (p : Path) : Bool :=
  fs.isfileAt p || fs.isdirAt p

/-- The `for p in (src, dst)` loop in `_determine_cause`'s
`except ResourceNotFoundError` handler.  When the loop finishes without
raising, the handler falls through and the wrapped call returns `None`. -/
def determineCauseLoop {α : Type} (fs : ProbeFS) :
    List Path → PyResult (Option α)
  | [] => .ok none
  | p :: rest =>
    if !(fs.existsAt p) then
      let root := dirname p
      if !(fs.isdirAt root) then
        if fs.isfileAt root then .fsError (.resourceInvalid (.path p))
        else .fsError (.parentDirectoryMissing (.path p))
      else .fsError (.resourceNotFound (.path p))
    else determineCauseLoop fs rest

/-- `_determine_cause`: determine the specific path raising an exception for
src/dst operations.  At its decorator `args[0]` is the `SMBFS` instance,
`args[1] = src` and `args[2] = dst`; a `DestinationExistsError` is re-raised
on `args[2]`, a `ResourceNotFoundError` triggers the probing loop, and every
other outcome passes through unchanged. -/
def determine_cause {α : Type} (fs : ProbeFS) (src dst : Path)
    (inner : PyResult α) : PyResult (Option α) :=
  match inner with
  | .ok a => .ok (some a)
  | .fsError (.destinationExists _) => .fsError (.destinationExists (.path dst))
  | .fsError (.resourceNotFound _) => determineCauseLoop fs [src, dst]
  | .fsError e => .fsError e
  | .escalate c => .escalate c
  | .raw e => .raw e

/-- `SMBFS.rename`: `_determine_cause` wrapped around `self._rename(src,
dst)`, where `_rename` is itself decorated with `_conv_smb_errors` (there
`args[0]` is the `SMBFS` instance and `args[1]` is `src`).  `rawInner` is
the raw outcome of the underlying `conn.rename` call, and `fs` gives the
probe results at disambiguation time. -/
def rename (fs : ProbeFS) (src dst : Path)
    (rawInner : Except RawExc Unit) : PyResult (Option Unit) :=
  determine_cause fs src dst (conv_smb_errors .fsObject (.path src) rawInner)

/-- One entry of a pysmb directory listing, as `_listPath` reads it. -/
structure SharedFile where
  filename : String
  isDirectory : Bool
deriving DecidableEq, Repr

/-- The matching loop of `_listPath` in single-path mode: skip `'..'`,
return the entry whose name is the search name (with `'.'` matching when
the search name is empty), and raise `ResourceNotFoundError(path)` when no
entry matches. -/
def listPathFind (searchpath : String) (path : Path) :
    List SharedFile → Except FsError SharedFile
  | [] => .error (.resourceNotFound (.path path))
  | i :: rest =>
    if i.filename = ".." then listPathFind searchpath path rest
    else if (i.filename = "." ∧ searchpath = "") ∨ i.filename = searchpath then
      .ok i
    else listPathFind searchpath path rest

/-- `_listPath(path)` in single-path mode: call
`_conv_smb_errors(self.conn.listPath)(self.share, pathdir)` on the
containing directory (`args[0]` is the share name, `args[1]` is
`dirname(path)`), then search the entries for `basename(path)`.  `rawList`
is the raw outcome of the underlying `conn.listPath` call. -/
def listPathSingle (shareVal : String) (path : Path)
    (rawList : Except RawExc (List SharedFile)) : PyResult SharedFile :=
  match conv_smb_errors (.shareName shareVal) (.path (dirname path)) rawList with
  | .ok entries =>
    match listPathFind (basename path) path entries with
    | .ok i => .ok i
    | .error e => .fsError e
  | .fsError e => .fsError e
  | .escalate c => .escalate c
  | .raw e => .raw e

/-- `SMBFS.isfile`: `not self._listPath(path).isDirectory`, with any
`FSError` caught and turned into `False`.  Exceptions that are not
PyFilesystem errors (the `Unhandled SMB error` escalation and raw re-raised
exceptions) are not caught. -/
def isfile (shareVal : String) (path : Path)
    (rawList : Except RawExc (List SharedFile)) : PyResult Bool :=
  match listPathSingle shareVal path rawList with
  | .ok i => .ok (!i.isDirectory)
  | .fsError _ => .ok false
  | .escalate c => .escalate c
  | .raw e => .raw e

/-- `SMBFS.isdir`: `self._listPath(path).isDirectory`, with any `FSError`
caught and turned into `False`; non-`FSError` exceptions are not caught. -/
def isdir (shareVal : String) (path : Path)
    (rawList : Except RawExc (List SharedFile)) : PyResult Bool :=
  match listPathSingle shareVal path rawList with
  | .ok i => .ok i.isDirectory
  | .fsError _ => .ok false
  | .escalate c => .escalate c
  | .raw e => .raw e

/-! ### State model of the remote share

`makedir`, `removedir` and `setcontents` are modelled by explicit state
passing over a snapshot of the remote share.  The pysmb calls they issue
(`createDirectory`, `deleteDirectory`, `deleteFiles`, `storeFile`) are
modelled with the status codes an SMB server answers with, already
translated through `_conv_smb_errors` into the taxonomy errors the method
bodies catch; the `isfile`/`isdir` probes in the method bodies read the
same state.  Each operation also returns the ordered trace of the remote
calls it issued that modify the share (listing probes are reads and are not
traced). -/

/-- The remote share's contents: the directories present besides the
implicit root, and the files with their byte contents. -/
structure FSState where
  dirs : List Path
  files : List (Path × List Nat)
deriving DecidableEq, Repr

/-- Whether `p` is a directory of the share (the root always is). -/
def FSState.isdirAt (st : FSState) (p : Path) : Bool :=
  p.isEmpty || st.dirs.contains p

/-- Whether `p` is a file of the share. -/
def FSState.isfileAt (st : FSState) (p : Path) : Bool :=
  (st.files.lookup p).isSome

/-- `fs.base.FS.exists`: `isfile or isdir`. -/
def FSState.existsAt (st : FSState) (p : Path) : Bool :=
  st.isfileAt p || st.isdirAt p

/-- The contents of the file at `p`, when one is there. -/
def FSState.getcontents (st : FSState) (p : Path) : Option (List Nat) :=
  st.files.lookup p

/-- Whether the directory `p` has any direct child entry. -/
def FSState.hasEntriesIn (st : FSState) (p : Path) : Bool :=
  (st.dirs ++ st.files.map Prod.fst).any
    (fun q => !q.isEmpty && dirname q == p)

/-- A remote call that modifies the share. -/
inductive RemoteCall where
  | createDirectoryCall (p : Path)
  | deleteDirectoryCall (p : Path)
  | deleteFilesCall (p : Path)
  | storeFileCall (p : Path)
deriving DecidableEq, Repr

/-- `_create_dir` (pysmb `createDirectory` through `_conv_smb_errors`): the
server answers `STATUS_OBJECT_NAME_COLLISION` (`0xc0000035`, translated to
`DestinationExistsError`) when something already exists at the path, and
`STATUS_OBJECT_PATH_NOT_FOUND` (`0xc000003a`, translated to
`ResourceNotFoundError`) when the parent directory is missing. -/
def create_dir (st : FSState) (p : Path) : Except FsError FSState :=
  if st.existsAt p then .error (.destinationExists (.path p))
  else if !(st.isdirAt (dirname p)) then .error (.resourceNotFound (.path p))
  else .ok { st with dirs := p :: st.dirs }

/-- `_remove_dir` (pysmb `deleteDirectory` through `_conv_smb_errors`):
`STATUS_NOT_A_DIRECTORY` (`0xc0000103`, `ResourceInvalidError`) on a file,
`STATUS_OBJECT_NAME_NOT_FOUND` (`0xc0000034`, `ResourceNotFoundError`) when
nothing is at the path, `STATUS_DIRECTORY_NOT_EMPTY` (`0xc0000101`,
`DirectoryNotEmptyError`) on a non-empty directory. -/
def remove_dir (st : FSState) (p : Path) : Except FsError FSState :=
  if st.isfileAt p then .error (.resourceInvalid (.path p))
  else if !(st.dirs.contains p) then .error (.resourceNotFound (.path p))
  else if st.hasEntriesIn p then .error (.directoryNotEmpty (.path p))
  else .ok { st with dirs := st.dirs.eraseP (fun q => q == p) }

/-- `SMBFS.remove` (pysmb `deleteFiles` through `_conv_smb_errors`): a
"file is a directory" status (`ResourceInvalidError`) on a directory,
`STATUS_OBJECT_NAME_NOT_FOUND` (`0xc0000034`, `ResourceNotFoundError`) when
no file is at the path. -/
def deleteFiles (st : FSState) (p : Path) : Except FsError FSState :=
  if st.isdirAt p then .error (.resourceInvalid (.path p))
  else
    match st.files.lookup p with
    | some _ => .ok { st with files := st.files.eraseP (fun q => q.1 == p) }
    | none => .error (.resourceNotFound (.path p))

/-- pysmb `storeFile` through `_conv_smb_errors`: fails on a directory and
when the parent directory is missing, otherwise creates or overwrites the
file. -/
def storeFile (st : FSState) (p : Path) (data : List Nat) :
    Except FsError FSState :=
  if st.isdirAt p then .error (.resourceInvalid (.path p))
  else if !(st.isdirAt (dirname p)) then .error (.resourceNotFound (.path p))
  else .ok { st with files := (p, data) :: st.files.eraseP (fun q => q.1 == p) }

/-- `fs.path.recursepath`: every prefix of the path from the root down,
`['/', '/a', '/a/b', ...]`. -/
def recursepath (p : Path) : List Path :=
  (List.range (p.length + 1)).map (fun n => p.take n)

/-- `SMBFS.setcontents`: remove the existing object first (there is no way
to erase a file's contents when writing through pysmb), swallowing a
`ResourceNotFoundError` from the removal, then store the new contents. -/
def setcontents (st : FSState) (p : Path) (data : List Nat) :
    Except FsError FSState × List RemoteCall :=
  match deleteFiles st p with
  | .ok st1 =>
    (match storeFile st1 p data with
     | .ok st2 => (.ok st2, [.deleteFilesCall p, .storeFileCall p])
     | .error e => (.error e, [.deleteFilesCall p, .storeFileCall p]))
  | .error (.resourceNotFound _) =>
    (match storeFile st p data with
     | .ok st2 => (.ok st2, [.deleteFilesCall p, .storeFileCall p])
     | .error e => (.error e, [.deleteFilesCall p, .storeFileCall p]))
  | .error e => (.error e, [.deleteFilesCall p])

/-- The `for p in paths` loop of `SMBFS.makedir`.  `fullPath` is the
original `path` argument used when re-raising; the `isfile`/`isdir` probes
in the `except` branches read the share state, which a failed
`createDirectory` left unchanged. -/
def makedirGo (fullPath : Path) (recursive allow_recreate : Bool) :
    FSState → List Path → Except FsError FSState × List RemoteCall
  | st, [] => (.ok st, [])
  | st, p :: rest =>
    if p.isEmpty then makedirGo fullPath recursive allow_recreate st rest
    else
      match create_dir st p with
      | .ok st1 =>
        let r := makedirGo fullPath recursive allow_recreate st1 rest
        (r.1, .createDirectoryCall p :: r.2)
      | .error (.destinationExists _) =>
        if st.isfileAt p then
          (.error (.resourceInvalid (.path fullPath)), [.createDirectoryCall p])
        else if st.isdirAt p then
          if !recursive && !allow_recreate then
            (.error (.destinationExists (.path fullPath)),
             [.createDirectoryCall p])
          else
            let r := makedirGo fullPath recursive allow_recreate st rest
            (r.1, .createDirectoryCall p :: r.2)
        else
          let r := makedirGo fullPath recursive allow_recreate st rest
          (r.1, .createDirectoryCall p :: r.2)
      | .error (.resourceNotFound q) =>
        if !recursive && !(st.isdirAt (dirname p)) then
          (.error (.parentDirectoryMissing (.path fullPath)),
           [.createDirectoryCall p])
        else
          (.error ((FsError.resourceNotFound q).withPath (.path fullPath)),
           [.createDirectoryCall p])
      | .error e =>
        (.error (e.withPath (.path fullPath)), [.createDirectoryCall p])

/-- `SMBFS.makedir`: create a directory from the top downwards depending
upon the flags (`paths = recursepath(path) if recursive else (path,)`). -/
def makedir (st : FSState) (path : Path) (recursive allow_recreate : Bool) :
    Except FsError FSState × List RemoteCall :=
  makedirGo path recursive allow_recreate st
    (if recursive then recursepath path else [path])

/-- The directories visited by `walk(path, search='depth')`: every
directory at or below `path`. -/
def dirsAtOrBelow (st : FSState) (p : Path) : List Path :=
  p :: st.dirs.filter (fun q => p.isPrefixOf q && q != p)

/-- `fs.base.FS.walk(path, search='depth', ignore_errors=True)` as
`removedir(force=True)` consumes it, modelled as a snapshot of the initial
state: the directories at or below `path` deepest first (ordered by
decreasing component count), each paired with the full paths of the files
directly inside it (the method body joins the yielded names back onto the
directory). -/
def walkDepth (st : FSState) (p : Path) : List (Path × List Path) :=
  let ds := dirsAtOrBelow st p
  let maxLen := ds.foldl (fun n q => max n q.length) 0
  ((List.range (maxLen + 1)).reverse.flatMap
      (fun n => ds.filter (fun q => q.length == n))).map
    (fun d => (d, (st.files.map Prod.fst).filter (fun f => dirname f == d)))

/-- The inner `for f in del_files: self.remove(pathjoin(del_dir, f))` loop
of `removedir(force=True)`. -/
def removeFilesSeq (st : FSState) :
    List Path → Except FsError FSState × List RemoteCall
  | [] => (.ok st, [])
  | f :: rest =>
    match deleteFiles st f with
    | .ok st1 =>
      let r := removeFilesSeq st1 rest
      (r.1, .deleteFilesCall f :: r.2)
    | .error e => (.error e, [.deleteFilesCall f])

/-- The nested `self.removedir(del_dir)` call issued by
`removedir(force=True)`: default flags, so it re-checks the root and then
issues a single `deleteDirectory`. -/
def removedirPlain (st : FSState) (p : Path) :
    Except FsError FSState × List RemoteCall :=
  if p.isEmpty then (.error (.removeRoot (.path p)), [])
  else
    match remove_dir st p with
    | .ok st1 => (.ok st1, [.deleteDirectoryCall p])
    | .error e => (.error e, [.deleteDirectoryCall p])

/-- The `for (del_dir, del_files) in self.walk(...)` loop of
`removedir(force=True)`. -/
def forceRemove (st : FSState) :
    List (Path × List Path) → Except FsError FSState × List RemoteCall
  | [] => (.ok st, [])
  | (d, dfiles) :: rest =>
    let r1 := removeFilesSeq st dfiles
    match r1.1 with
    | .error e => (.error e, r1.2)
    | .ok st1 =>
      let r2 := removedirPlain st1 d
      match r2.1 with
      | .error e => (.error e, r1.2 ++ r2.2)
      | .ok st2 =>
        let r3 := forceRemove st2 rest
        (r3.1, r1.2 ++ r2.2 ++ r3.2)

/-- The `for p in paths: self._remove_dir(p)` loop of
`removedir(recursive=True)`. -/
def removeDirsSeq (st : FSState) :
    List Path → Except FsError FSState × List RemoteCall
  | [] => (.ok st, [])
  | p :: rest =>
    match remove_dir st p with
    | .ok st1 =>
      let r := removeDirsSeq st1 rest
      (r.1, .deleteDirectoryCall p :: r.2)
    | .error e => (.error e, [.deleteDirectoryCall p])

/-- `SMBFS.removedir`: refuse to remove the root before any remote call,
then remove the directory tree from the bottom upwards depending upon the
flags (`recursepath(path, reverse=True)[:-1]` is the reversed prefix list
without the root). -/
def removedir (st : FSState) (path : Path) (recursive force : Bool) :
    Except FsError FSState × List RemoteCall :=
  if path.isEmpty then (.error (.removeRoot (.path path)), [])
  else if force then forceRemove st (walkDepth st path)
  else if recursive then
    removeDirsSeq st ((recursepath path).reverse.dropLast)
  else
    match remove_dir st path with
    | .ok st1 => (.ok st1, [.deleteDirectoryCall path])
    | .error e => (.error e, [.deleteDirectoryCall path])

theorem convOperationFailure_eq_find {α : Type} (share path : PyVal)
    (allMsgs : List SMBMessage) (rest : List SMBMessage) :
    convOperationFailure (α := α) share path allMsgs rest =
      match (rest.map msgStatus).find? (fun s => s != 0) with
      | none => .raw (.operationFailure allMsgs)
      | some c =>
        match mapStatus share path c with
        | some e => .fsError e
        | none => .escalate c := by
  induction rest with
  | nil => rfl
  | cons m rest ih =>
    by_cases h : msgStatus m = 0
    · simpa [convOperationFailure, List.find?, h] using ih
    · have hb : (msgStatus m != 0) = true := by simpa using h
      simp [convOperationFailure, List.find?, h, hb]

/-- Any taxonomy error produced by the `elif` chain carries `path` in its
`path` attribute, except the share-does-not-exist status `0xc00000cc`,
which carries `share` (`args[0]`). -/
theorem mapStatus_errPath (share path : PyVal) (c : Nat) (e : FsError)
    (hc : c ∈ supportedCodes)
    (h : mapStatus share path c = some e) :
    e.errPath = some path ∨ (c = 0xc00000cc ∧ e.errPath = some share) := by
  fin_cases hc <;> simp [mapStatus] at h <;> simp [← h, FsError.errPath]

/-- Outside the handled status codes the `elif` chain falls into its final
`else` branch. -/
theorem mapStatus_eq_none (share path : PyVal) (c : Nat)
    (hc : c ∉ supportedCodes) :
    mapStatus share path c = none := by
  simp [supportedCodes] at hc
  obtain ⟨h1, h2, h3, h4, h5, h6, h7, h8, h9, h10, h11, h12, h13, h14, h15,
    h16, h17, h18⟩ := hc
  simp [mapStatus, h1, h2, h3, h4, h5, h6, h7, h8, h9, h10, h11, h12, h13,
    h14, h15, h16, h17, h18]

/-- C1: for every protocol-level failure whose messages contain a supported
non-success status code, `_conv_smb_errors` scans the messages in order,
skips success statuses (`0x0`), and raises exactly the taxonomy error the
`elif` chain specifies for the first non-success status code found; in
particular `0xc0000034` yields resource-not-found, `0xc0000022`
permission-denied, `0xc0000035` destination-exists, and `0xc0000101`
directory-not-empty. -/
theorem C1_conv_maps_first_nonsuccess (share path : PyVal)
    (msgs : List SMBMessage) (c : Nat) (e : FsError)
    (hfirst : firstNonSuccess msgs = some c)
    (hmap : mapStatus share path c = some e) :
    conv_smb_errors (α := Unit) share path
        (Except.error (.operationFailure msgs)) = .fsError e
    ∧ (c = 0xc0000034 → e = .resourceNotFound path)
    ∧ (c = 0xc0000022 → e = .permissionDenied "access" path)
    ∧ (c = 0xc0000035 → e = .destinationExists path)
    ∧ (c = 0xc0000101 → e = .directoryNotEmpty path) := by
  unfold firstNonSuccess at hfirst
  refine ⟨?_, ?_, ?_, ?_, ?_⟩
  · show convOperationFailure share path msgs msgs = _
    rw [convOperationFailure_eq_find, hfirst]
    simp [hmap]
  all_goals rintro rfl
  all_goals simp [mapStatus] at hmap
  all_goals exact hmap.symm

/-- Witness for C1: a failure whose messages are a success status followed
by `0xc0000034` yields resource-not-found on the path. -/
theorem C1_witness :
    firstNonSuccess [⟨2, 0, 0⟩, ⟨1, 0xc0000034, 0⟩] = some 0xc0000034
    ∧ conv_smb_errors (α := Unit) (.shareName "s") (.path ["a"])
        (Except.error (.operationFailure [⟨2, 0, 0⟩, ⟨1, 0xc0000034, 0⟩]))
      = .fsError (.resourceNotFound (.path ["a"])) :=
  ⟨by decide,
   (C1_conv_maps_first_nonsuccess (.shareName "s") (.path ["a"]) _ 0xc0000034
      (.resourceNotFound (.path ["a"])) (by decide) (by decide)).1⟩

/-- C2: for every protocol-level failure whose first non-success status code
is not in the mapping table, `_conv_smb_errors` raises the plain
`Exception('Unhandled SMB error: ...')` escalation, which is neither a
taxonomy member nor a success result, and the unknown code is never
swallowed. -/
theorem C2_conv_escalates_unmapped (share path : PyVal)
    (msgs : List SMBMessage) (c : Nat)
    (hfirst : firstNonSuccess msgs = some c)
    (hmap : mapStatus share path c = none) :
    conv_smb_errors (α := Unit) share path
        (Except.error (.operationFailure msgs)) = .escalate c
    ∧ (∀ e, PyResult.escalate (α := Unit) c ≠ .fsError e)
    ∧ (∀ a, PyResult.escalate (α := Unit) c ≠ .ok a) := by
  unfold firstNonSuccess at hfirst
  refine ⟨?_, ?_, ?_⟩
  · show convOperationFailure share path msgs msgs = _
    rw [convOperationFailure_eq_find, hfirst]
    simp [hmap]
  · intro e h
    exact PyResult.noConfusion h
  · intro a h
    exact PyResult.noConfusion h

/-- Witness for C2: status `0xc0000001` is unmapped and escalates. -/
theorem C2_witness :
    firstNonSuccess [⟨2, 0, 0xc0000001⟩] = some 0xc0000001
    ∧ conv_smb_errors (α := Unit) (.shareName "s") (.path ["a"])
        (Except.error (.operationFailure [⟨2, 0, 0xc0000001⟩]))
      = .escalate 0xc0000001 :=
  ⟨by decide,
   (C2_conv_escalates_unmapped (.shareName "s") (.path ["a"]) _ 0xc0000001
      (by decide) (by decide)).1⟩

/-- C7 counterexample: a socket error with `errno` `ECONNRESET` (a
network-level failure outside the handled set) is re-raised as the raw
socket error, not as a connection-lost taxonomy error. -/
theorem C7_counterexample :
    conv_smb_errors (α := Unit) .fsObject (.path ["x"])
        (Except.error (.socketError ECONNRESET))
      = .raw (.socketError ECONNRESET)
    ∧ ∀ e : FsError,
        (PyResult.raw (α := Unit) (.socketError ECONNRESET)) ≠ .fsError e := by
  exact ⟨by decide, fun e h => PyResult.noConfusion h⟩

/-- C7 amended: network-level failures are re-raised as the connection-lost
taxonomy error exactly when they are a DNS name-resolution failure
(`gaierror` with `EAI_NONAME`), a socket error with `errno` in
`{ECONNREFUSED, EPIPE, ETIMEDOUT}`, or a pysmb not-connected/not-ready
condition; any other socket-level error is re-raised as the raw exception
and does propagate. -/
theorem C7_amended_network_mapping (share path : PyVal) (n : Int) :
    (conv_smb_errors (α := Unit) share path (.error (.gaierror EAI_NONAME)) =
        .fsError (.remoteConnection (.gaierror EAI_NONAME) none))
    ∧ (n = ECONNREFUSED ∨ n = EPIPE ∨ n = ETIMEDOUT →
        conv_smb_errors (α := Unit) share path (.error (.socketError n)) =
          .fsError (.remoteConnection (.socketError n) none))
    ∧ (conv_smb_errors (α := Unit) share path (.error .notConnectedError) =
        .fsError (.remoteConnection .notConnectedError none))
    ∧ (conv_smb_errors (α := Unit) share path (.error .notReadyError) =
        .fsError (.remoteConnection .notReadyError none))
    ∧ (¬(n = ECONNREFUSED ∨ n = EPIPE ∨ n = ETIMEDOUT) →
        conv_smb_errors (α := Unit) share path (.error (.socketError n)) =
          .raw (.socketError n))
    ∧ (n ≠ EAI_NONAME →
        conv_smb_errors (α := Unit) share path (.error (.gaierror n)) =
          .raw (.gaierror n)) := by
  refine ⟨by simp [conv_smb_errors], ?_, rfl, rfl, ?_, ?_⟩
  · intro hn
    simp [conv_smb_errors, hn]
  · intro hn
    simp [conv_smb_errors, hn]
  · intro hn
    simp [conv_smb_errors, hn]

/-- Witness for C7 amended: `ECONNREFUSED` maps to connection-lost while
`ECONNRESET` is re-raised raw. -/
theorem C7_witness :
    conv_smb_errors (α := Unit) .fsObject (.path ["x"])
        (.error (.socketError ECONNREFUSED)) =
      .fsError (.remoteConnection (.socketError ECONNREFUSED) none)
    ∧ conv_smb_errors (α := Unit) .fsObject (.path ["x"])
        (.error (.gaierror 0)) = .raw (.gaierror 0) :=
  ⟨(C7_amended_network_mapping .fsObject (.path ["x"]) ECONNREFUSED).2.1
      (Or.inl rfl),
   (C7_amended_network_mapping .fsObject (.path ["x"]) 0).2.2.2.2.2
      (by decide)⟩

/-- Inversion: an `OperationFailure` only converts to a taxonomy error via
the first non-success status code and the mapping table. -/
theorem conv_opFailure_fsError_inv {α : Type} (share path : PyVal)
    (msgs : List SMBMessage) (e : FsError)
    (h : conv_smb_errors (α := α) share path
        (.error (.operationFailure msgs)) = .fsError e) :
    ∃ c, firstNonSuccess msgs = some c ∧ mapStatus share path c = some e := by
  have h2 : convOperationFailure (α := α) share path msgs msgs = .fsError e := h
  rw [convOperationFailure_eq_find] at h2
  unfold firstNonSuccess
  split at h2
  · exact PyResult.noConfusion h2
  · rename_i c hfind
    split at h2
    · rename_i e2 hmap
      cases h2
      exact ⟨c, hfind, hmap⟩
    · exact PyResult.noConfusion h2

/-- C5 counterexample: `SMBFS.remove` is decorated with `_conv_smb_errors`
directly, so for the share-does-not-exist status `0xc00000cc` the raised
`ResourceInvalidError` carries `args[0]`, which is the `SMBFS` instance
itself — not the failing path. -/
theorem C5_counterexample :
    removeTranslated ["x"]
        (Except.error (.operationFailure [⟨2, 0, 0xc00000cc⟩]))
      = .fsError (.resourceInvalid .fsObject)
    ∧ FsError.errPath (.resourceInvalid .fsObject) ≠ some (.path ["x"]) := by
  decide

/-- C5 amended: every taxonomy error produced from a mapped status code
carries a `path` attribute drawn from the decorator's arguments: for a
wrapped client call (`args = (share, pathdir)`) it is the path or the share
name, and for a directly decorated method (`args[0]` is the `SMBFS`
instance) it is the failing path for every mapped code except
`0xc00000cc`, whose error carries the instance instead. -/
theorem C5_amended_path_attribution (s : String) (p : Path)
    (msgs : List SMBMessage) (c : Nat) (e : FsError) :
    (conv_smb_errors (α := Unit) (.shareName s) (.path p)
        (.error (.operationFailure msgs)) = .fsError e →
      e.errPath = some (.path p) ∨ e.errPath = some (.shareName s))
    ∧ (firstNonSuccess msgs = some c → c ≠ 0xc00000cc →
        conv_smb_errors (α := Unit) .fsObject (.path p)
          (.error (.operationFailure msgs)) = .fsError e →
        e.errPath = some (.path p)) := by
  constructor
  · intro h
    obtain ⟨c2, _, hmap⟩ := conv_opFailure_fsError_inv _ _ _ _ h
    by_cases hc : c2 ∈ supportedCodes
    · rcases mapStatus_errPath _ _ _ _ hc hmap with h3 | ⟨_, h3⟩
      · exact Or.inl h3
      · exact Or.inr h3
    · rw [mapStatus_eq_none _ _ _ hc] at hmap
      exact Option.noConfusion hmap
  · intro hfirst hcc h
    obtain ⟨c2, hfind, hmap⟩ := conv_opFailure_fsError_inv _ _ _ _ h
    rw [hfirst] at hfind
    cases hfind
    by_cases hc : c ∈ supportedCodes
    · rcases mapStatus_errPath _ _ _ _ hc hmap with h3 | ⟨h4, _⟩
      · exact h3
      · exact absurd h4 hcc
    · rw [mapStatus_eq_none _ _ _ hc] at hmap
      exact Option.noConfusion hmap

/-- Witness for C5 amended: a wrapped client call failing with
`0xc00000cc` carries the share name, and a directly decorated method
failing with `0xc0000034` carries the path. -/
theorem C5_witness :
    FsError.errPath (.resourceInvalid (.shareName "s")) =
        some (.path ["x"]) ∨
      FsError.errPath (.resourceInvalid (.shareName "s")) =
        some (.shareName "s") :=
  (C5_amended_path_attribution "s" ["x"] [⟨2, 0, 0xc00000cc⟩] 0
      (.resourceInvalid (.shareName "s"))).1 (by decide)

/-- C6: when the underlying rename fails with a not-found error, `src`
exists at probe time, and `dst`'s parent directory neither is a directory
nor a file (it does not exist), the two-path disambiguation raises
parent-directory-missing attributed to `dst`. -/
theorem C6_rename_parent_missing (fs : ProbeFS) (src dst : Path)
    (rawInner : Except RawExc Unit) (x : PyVal)
    (hconv : conv_smb_errors .fsObject (.path src) rawInner =
      .fsError (.resourceNotFound x))
    (hsrc : fs.existsAt src = true)
    (hdst : fs.existsAt dst = false)
    (hdirParent : fs.isdirAt (dirname dst) = false)
    (hfileParent : fs.isfileAt (dirname dst) = false) :
    rename fs src dst rawInner =
      .fsError (.parentDirectoryMissing (.path dst)) := by
  unfold rename determine_cause
  rw [hconv]
  simp [determineCauseLoop, hsrc, hdst, hdirParent, hfileParent]

/-- Witness for C6: `src = /s` exists, `dst = /d/x` whose parent `/d` does
not exist; the underlying `0xc0000034` failure becomes
parent-directory-missing on `/d/x`. -/
theorem C6_witness :
    rename ⟨fun p => p == ["s"], fun p => p.isEmpty⟩ ["s"] ["d", "x"]
        (Except.error (.operationFailure [⟨2, 0, 0xc0000034⟩]))
      = .fsError (.parentDirectoryMissing (.path ["d", "x"])) :=
  C6_rename_parent_missing ⟨fun p => p == ["s"], fun p => p.isEmpty⟩
    ["s"] ["d", "x"] (Except.error (.operationFailure [⟨2, 0, 0xc0000034⟩]))
    (.path ["s"]) (by decide) (by decide) (by decide) (by decide) (by decide)

/-- C10: when the underlying rename fails with a not-found error but at
probe time both `src` and `dst` exist, the disambiguation loop finds
nothing to re-raise, the handler falls through, and `rename` returns
normally (`None`): the underlying failure is swallowed. -/
theorem C10_rename_swallows_when_both_exist (fs : ProbeFS) (src dst : Path)
    (rawInner : Except RawExc Unit) (x : PyVal)
    (hconv : conv_smb_errors .fsObject (.path src) rawInner =
      .fsError (.resourceNotFound x))
    (hsrc : fs.existsAt src = true)
    (hdst : fs.existsAt dst = true) :
    rename fs src dst rawInner = .ok none := by
  unfold rename determine_cause
  rw [hconv]
  simp [determineCauseLoop, hsrc, hdst]

/-- Witness for C10: both `/s` and `/d` exist as files; the `0xc0000034`
failure from the underlying rename is swallowed and `rename` returns
`None`. -/
theorem C10_witness :
    rename ⟨fun p => p == ["s"] || p == ["d"], fun p => p.isEmpty⟩
        ["s"] ["d"]
        (Except.error (.operationFailure [⟨2, 0, 0xc0000034⟩]))
      = .ok none :=
  C10_rename_swallows_when_both_exist
    ⟨fun p => p == ["s"] || p == ["d"], fun p => p.isEmpty⟩ ["s"] ["d"]
    (Except.error (.operationFailure [⟨2, 0, 0xc0000034⟩]))
    (.path ["s"]) (by decide) (by decide) (by decide)

/-- C4 counterexample: a protocol failure with the unmapped status code
`0xc0000001` while listing the containing directory makes `isfile` and
`isdir` propagate the `Unhandled SMB error` escalation instead of
returning `False` (only `FSError` is caught). -/
theorem C4_counterexample :
    isfile "s" ["x"] (Except.error (.operationFailure [⟨2, 0, 0xc0000001⟩]))
      = .escalate 0xc0000001
    ∧ isdir "s" ["x"] (Except.error (.operationFailure [⟨2, 0, 0xc0000001⟩]))
      = .escalate 0xc0000001
    ∧ (PyResult.escalate (α := Bool) 0xc0000001) ≠ .ok false := by
  refine ⟨by decide, by decide, fun h => PyResult.noConfusion h⟩

/-- C4 amended: `isfile` and `isdir` return `False` for every failure that
is raised as a PyFilesystem taxonomy error (every mapped status code,
connection failures) and for a path whose entry is missing from its
containing directory's listing; but a failure that is not a PyFilesystem
error — the unmapped-status escalation or a raw re-raised exception — is
not caught and propagates. -/
theorem C4_isfile_isdir_false_on_fserror (shareVal : String) (path : Path)
    (rawList : Except RawExc (List SharedFile)) :
    (∀ e, conv_smb_errors (.shareName shareVal) (.path (dirname path))
          rawList = (PyResult.fsError e : PyResult (List SharedFile)) →
        isfile shareVal path rawList = .ok false
        ∧ isdir shareVal path rawList = .ok false)
    ∧ (∀ entries e,
        conv_smb_errors (.shareName shareVal) (.path (dirname path))
          rawList = (PyResult.ok entries : PyResult (List SharedFile)) →
        listPathFind (basename path) path entries = .error e →
        isfile shareVal path rawList = .ok false
        ∧ isdir shareVal path rawList = .ok false)
    ∧ (∀ c, conv_smb_errors (.shareName shareVal) (.path (dirname path))
          rawList = (PyResult.escalate c : PyResult (List SharedFile)) →
        isfile shareVal path rawList = .escalate c
        ∧ isdir shareVal path rawList = .escalate c) := by
  refine ⟨?_, ?_, ?_⟩
  · intro e h
    unfold isfile isdir listPathSingle
    rw [h]
    exact ⟨rfl, rfl⟩
  · intro entries e h hfind
    unfold isfile isdir listPathSingle
    rw [h]
    simp [hfind]
  · intro c h
    unfold isfile isdir listPathSingle
    rw [h]
    exact ⟨rfl, rfl⟩

/-- Witness for C4 amended: a mapped not-found failure (`0xc0000034`) on
the containing directory makes `isfile` return `False`, and a listing of
the directory without the searched name makes `isdir` return `False`. -/
theorem C4_witness :
    isfile "s" ["x"]
        (Except.error (.operationFailure [⟨2, 0, 0xc0000034⟩])) = .ok false
    ∧ isdir "s" ["x"] (Except.ok [⟨".", true⟩, ⟨"y", false⟩]) = .ok false :=
  ⟨((C4_isfile_isdir_false_on_fserror "s" ["x"]
      (Except.error (.operationFailure [⟨2, 0, 0xc0000034⟩]))).1
      (.resourceNotFound (.path (dirname ["x"]))) (by decide)).1,
   ((C4_isfile_isdir_false_on_fserror "s" ["x"]
      (Except.ok [⟨".", true⟩, ⟨"y", false⟩])).2.1
      [⟨".", true⟩, ⟨"y", false⟩] (.resourceNotFound (.path ["x"]))
      (by decide) rfl).2⟩

/-- C3 counterexample: with `/a`, `/a/b` and `/a/b/c` all existing,
re-running `makedir('/a/b/c', recursive=True)` without `allow_recreate`
succeeds instead of raising destination-exists, because the
destination-exists re-raise is guarded by
`not recursive and not allow_recreate`. -/
theorem C3_counterexample :
    (makedir ⟨[["a", "b", "c"], ["a", "b"], ["a"]], []⟩ ["a", "b", "c"]
        true false).1
      = .ok ⟨[["a", "b", "c"], ["a", "b"], ["a"]], []⟩
    ∧ (makedir ⟨[["a", "b", "c"], ["a", "b"], ["a"]], []⟩ ["a", "b", "c"]
        true false).1
      ≠ .error (.destinationExists (.path ["a", "b", "c"])) := by
  refine ⟨rfl, ?_⟩
  intro h
  rw [show (makedir ⟨[["a", "b", "c"], ["a", "b"], ["a"]], []⟩
      ["a", "b", "c"] true false).1
      = .ok ⟨[["a", "b", "c"], ["a", "b"], ["a"]], []⟩ from rfl] at h
  exact Except.noConfusion h

/-- C3 amended: `makedir('/a/b/c', recursive=True)` with no ancestors
creates `/a`, `/a/b`, `/a/b/c` in that top-down order; re-running it with
`allow_recreate=True` succeeds, and re-running it without `allow_recreate`
but still with `recursive=True` also succeeds (a recursive makedir
tolerates existing directories); destination-exists is raised only when
re-run with both `recursive` and `allow_recreate` off. -/
theorem C3_amended_makedir_recursive :
    makedir ⟨[], []⟩ ["a", "b", "c"] true false =
      (.ok ⟨[["a", "b", "c"], ["a", "b"], ["a"]], []⟩,
       [.createDirectoryCall ["a"], .createDirectoryCall ["a", "b"],
        .createDirectoryCall ["a", "b", "c"]])
    ∧ (makedir ⟨[["a", "b", "c"], ["a", "b"], ["a"]], []⟩ ["a", "b", "c"]
        true true).1
      = .ok ⟨[["a", "b", "c"], ["a", "b"], ["a"]], []⟩
    ∧ (makedir ⟨[["a", "b", "c"], ["a", "b"], ["a"]], []⟩ ["a", "b", "c"]
        true false).1
      = .ok ⟨[["a", "b", "c"], ["a", "b"], ["a"]], []⟩
    ∧ makedir ⟨[["a", "b", "c"], ["a", "b"], ["a"]], []⟩ ["a", "b", "c"]
        false false
      = (.error (.destinationExists (.path ["a", "b", "c"])),
         [.createDirectoryCall ["a", "b", "c"]]) :=
  ⟨rfl, rfl, rfl, rfl⟩

/-- C8: `removedir` on the root path raises remove-root-forbidden before
any remote call is issued (the trace of remote calls is empty, so no
remote state is touched), for every share state and every combination of
the `recursive` and `force` flags. -/
theorem C8_removedir_root (st : FSState) (recursive force : Bool) :
    removedir st [] recursive force =
      (.error (.removeRoot (.path [])), []) := rfl

/-- C9: `setcontents` issues the removal before the store; with an
existing file at the path the file is removed and the new content stored,
and with no prior object at the path the removal's not-found error is
swallowed and the call still succeeds with the new content stored. -/
theorem C9_setcontents_removes_then_stores (st : FSState) (p : Path)
    (data : List Nat)
    (hparent : st.isdirAt (dirname p) = true)
    (hnotdir : st.isdirAt p = false) :
    (st.isfileAt p = true →
      ∃ st2, setcontents st p data =
          (.ok st2, [.deleteFilesCall p, .storeFileCall p])
        ∧ st2.getcontents p = some data)
    ∧ (st.isfileAt p = false →
      ∃ st2, setcontents st p data =
          (.ok st2, [.deleteFilesCall p, .storeFileCall p])
        ∧ st2.getcontents p = some data) := by
  rw [FSState.isdirAt] at hnotdir hparent
  simp only [Bool.or_eq_false_iff] at hnotdir
  obtain ⟨hpe, hpc⟩ := hnotdir
  have hpe2 : p ≠ [] := by
    intro h
    rw [h] at hpe
    simp at hpe
  have hpc2 : p ∉ st.dirs := by simpa using hpc
  have hparent2 : dirname p = [] ∨ dirname p ∈ st.dirs := by
    simpa using hparent
  constructor <;> intro hfile
  · obtain ⟨v, hv⟩ : ∃ v, st.files.lookup p = some v := by
      rw [FSState.isfileAt] at hfile
      rcases h : st.files.lookup p with _ | v
      · rw [h] at hfile
        simp at hfile
      · exact ⟨v, rfl⟩
    have h1 : deleteFiles st p =
        .ok ⟨st.dirs, st.files.eraseP (fun q => q.1 == p)⟩ := by
      simp [deleteFiles, FSState.isdirAt, hpe2, hpc2, hv]
    have h2 : storeFile ⟨st.dirs, st.files.eraseP (fun q => q.1 == p)⟩
        p data =
        .ok ⟨st.dirs, (p, data) ::
          (st.files.eraseP (fun q => q.1 == p)).eraseP
            (fun q => q.1 == p)⟩ := by
      rcases hparent2 with hp2 | hp2 <;>
        simp [storeFile, FSState.isdirAt, hpe2, hpc2, hp2]
    refine ⟨⟨st.dirs, (p, data) ::
        (st.files.eraseP (fun q => q.1 == p)).eraseP
          (fun q => q.1 == p)⟩, ?_, ?_⟩
    · simp [setcontents, h1, h2]
    · simp [FSState.getcontents, List.lookup]
  · have hnone : st.files.lookup p = none := by
      rw [FSState.isfileAt] at hfile
      rcases h : st.files.lookup p with _ | v
      · rfl
      · rw [h] at hfile
        simp at hfile
    have h1 : deleteFiles st p = .error (.resourceNotFound (.path p)) := by
      simp [deleteFiles, FSState.isdirAt, hpe2, hpc2, hnone]
    have h2 : storeFile st p data =
        .ok ⟨st.dirs, (p, data) ::
          st.files.eraseP (fun q => q.1 == p)⟩ := by
      rcases hparent2 with hp2 | hp2 <;>
        simp [storeFile, FSState.isdirAt, hpe2, hpc2, hp2]
    refine ⟨⟨st.dirs, (p, data) ::
        st.files.eraseP (fun q => q.1 == p)⟩, ?_, ?_⟩
    · simp [setcontents, h1, h2]
    · simp [FSState.getcontents, List.lookup]

/-- Witness for C9: storing into `/d/g` (no prior object, parent `/d`
exists) succeeds with the removal issued first and swallowed. -/
theorem C9_witness :
    ∃ st2, setcontents ⟨[["d"]], [(["d", "f"], [7])]⟩ ["d", "g"] [1] =
        (.ok st2, [.deleteFilesCall ["d", "g"], .storeFileCall ["d", "g"]])
      ∧ st2.getcontents ["d", "g"] = some [1] :=
  (C9_setcontents_removes_then_stores ⟨[["d"]], [(["d", "f"], [7])]⟩
    ["d", "g"] [1] (by decide) (by decide)).2 (by decide)

end SMBFSModel
